import Mathlib

/-!
Shallow embedding of `src/app.py`, a single-script financial calculator
(base profitability model, NPV, sensitivity sweep, scenario engine).
All numeric quantities are modelled over `ℚ`; the Python script computes the
same closed-form arithmetic over IEEE doubles.
-/

namespace FinApp

/-- The form inputs of the app (lines 17-31 of `src/app.py`).
`sales_units` and `years` are integer-valued widgets but participate in
rational arithmetic; `discount_rate` is the slider percentage divided by 100. -/
structure Inputs where
  sales_units : ℚ
  price_per_unit : ℚ
  variable_cost_per_unit : ℚ
  fixed_cost : ℚ
  tax_rate : ℚ
  initial_investment : ℚ
  discount_rate : ℚ
  years : ℕ
deriving Repr, DecidableEq

/-- The widget-enforced bounds: `sales_units ≥ 1`, money amounts ≥ 0,
tax slider 0..50, discount slider 1..20 (percent, stored divided by 100),
`years ≥ 1`. -/
def Valid (inp : Inputs) : Prop :=
  1 ≤ inp.sales_units ∧ 0 ≤ inp.price_per_unit ∧ 0 ≤ inp.variable_cost_per_unit ∧
  0 ≤ inp.fixed_cost ∧ 0 ≤ inp.tax_rate ∧ inp.tax_rate ≤ 50 ∧
  0 ≤ inp.initial_investment ∧ 1/100 ≤ inp.discount_rate ∧ inp.discount_rate ≤ 20/100 ∧
  1 ≤ inp.years

instance : DecidablePred Valid := fun inp => by unfold Valid; infer_instance

/-- Line 34: `revenue = sales_units * price_per_unit`. -/
def revenue (inp : Inputs) : ℚ := inp.sales_units * inp.price_per_unit

/-- Line 35: `total_variable_cost = sales_units * variable_cost_per_unit`. -/
def total_variable_cost (inp : Inputs) : ℚ := inp.sales_units * inp.variable_cost_per_unit

/-- Line 36: `ebit = revenue - total_variable_cost - fixed_cost`. -/
def ebit (inp : Inputs) : ℚ := revenue inp - total_variable_cost inp - inp.fixed_cost

/-- Line 37: `tax_paid = ebit * (tax_rate / 100) if ebit > 0 else 0`. -/
def tax_paid (inp : Inputs) : ℚ :=
  if 0 < ebit inp then ebit inp * (inp.tax_rate / 100) else 0

/-- Line 38: `net_income = ebit - tax_paid`. -/
def net_income (inp : Inputs) : ℚ := ebit inp - tax_paid inp

/-- Line 41: `cash_flows = [net_income for _ in range(years)]`. -/
def cash_flows (inp : Inputs) : List ℚ := List.replicate inp.years (net_income inp)

/-- Line 42: `discounted_cash_flows = [cf / (1+discount_rate)**(i+1) for i, cf in enumerate(cash_flows)]`. -/
def discounted_cash_flows (inp : Inputs) : List ℚ :=
  (cash_flows inp).mapIdx (fun i cf => cf / (1 + inp.discount_rate) ^ (i + 1))

/-- Line 43: `npv = sum(discounted_cash_flows) - initial_investment`. -/
def npv (inp : Inputs) : ℚ := (discounted_cash_flows inp).sum - inp.initial_investment

/-- The default form values of `src/app.py` (also the worked example of the
spec): 1000 units at price 50 with variable cost 20, fixed cost 5000,
tax 20 %, investment 20000, discount 10 %, 5 years. -/
def exampleInputs : Inputs :=
  { sales_units := 1000, price_per_unit := 50, variable_cost_per_unit := 20,
    fixed_cost := 5000, tax_rate := 20, initial_investment := 20000,
    discount_rate := 10 / 100, years := 5 }

/-- The four sensitivity factors, line 77: `["Sales", "Price", "Variable Cost", "Fixed Cost"]`. -/
inductive Factor where
  | sales
  | price
  | variableCost
  | fixedCost
deriving Repr, DecidableEq

/-- Line 77: the factor list, in program order. -/
def factors : List Factor := [.sales, .price, .variableCost, .fixedCost]

/-- `np.linspace(lo, hi, num)`: `num` evenly spaced values from `lo` to `hi`
inclusive (lines 81).  For `num = 1` numpy returns `[lo]`; otherwise point `i`
is `lo + i*(hi-lo)/(num-1)`. -/
def linspace (lo hi : ℚ) (num : ℕ) : List ℚ :=
  if num = 1 then [lo]
  else (List.range num).map (fun i : ℕ => lo + (i : ℚ) * (hi - lo) / ((num : ℚ) - 1))

/-- Lines 83-102: apply `pct_change` to the chosen factor only, returning
`(adj_sales, adj_price, adj_vc, adj_fc)`; the other three stay at base value. -/
def adjustFactor (inp : Inputs) (factor : Factor) (pct_change : ℚ) : ℚ × ℚ × ℚ × ℚ :=
  match factor with
  | .sales =>
      (inp.sales_units * (1 + pct_change / 100), inp.price_per_unit,
        inp.variable_cost_per_unit, inp.fixed_cost)
  | .price =>
      (inp.sales_units, inp.price_per_unit * (1 + pct_change / 100),
        inp.variable_cost_per_unit, inp.fixed_cost)
  | .variableCost =>
      (inp.sales_units, inp.price_per_unit,
        inp.variable_cost_per_unit * (1 + pct_change / 100), inp.fixed_cost)
  | .fixedCost =>
      (inp.sales_units, inp.price_per_unit,
        inp.variable_cost_per_unit, inp.fixed_cost * (1 + pct_change / 100))

/-- Line 105 (= line 190): `adj_revenue = adj_sales * adj_price`. -/
def adj_revenue (adj_sales adj_price : ℚ) : ℚ := adj_sales * adj_price

/-- Line 106 (= line 191): `adj_ebit = adj_revenue - (adj_sales * adj_vc) - adj_fc`. -/
def adj_ebit (adj_sales adj_price adj_vc adj_fc : ℚ) : ℚ :=
  adj_revenue adj_sales adj_price - adj_sales * adj_vc - adj_fc

/-- Line 107 (= line 192):
`adj_net_income = adj_ebit * (1 - tax_rate/100) if adj_ebit > 0 else adj_ebit`.
Note this differs syntactically from the base path (line 38). -/
def adj_net_income (inp : Inputs) (adj_sales adj_price adj_vc adj_fc : ℚ) : ℚ :=
  if 0 < adj_ebit adj_sales adj_price adj_vc adj_fc then
    adj_ebit adj_sales adj_price adj_vc adj_fc * (1 - inp.tax_rate / 100)
  else adj_ebit adj_sales adj_price adj_vc adj_fc

/-- Line 108 (= line 193): `adj_cash_flows = [adj_net_income] * years`. -/
def adj_cash_flows (inp : Inputs) (adj_sales adj_price adj_vc adj_fc : ℚ) : List ℚ :=
  List.replicate inp.years (adj_net_income inp adj_sales adj_price adj_vc adj_fc)

/-- Line 109 (= line 194): discounted adjusted cash flows. -/
def adj_discounted_cash_flows (inp : Inputs) (adj_sales adj_price adj_vc adj_fc : ℚ) : List ℚ :=
  (adj_cash_flows inp adj_sales adj_price adj_vc adj_fc).mapIdx
    (fun i cf => cf / (1 + inp.discount_rate) ^ (i + 1))

/-- Line 110 (= line 195): `adj_npv = sum(adj_discounted_cash_flows) - initial_investment`. -/
def adj_npv (inp : Inputs) (adj_sales adj_price adj_vc adj_fc : ℚ) : ℚ :=
  (adj_discounted_cash_flows inp adj_sales adj_price adj_vc adj_fc).sum - inp.initial_investment

/-- One row of the sensitivity table (lines 112-116). -/
structure SensitivityRow where
  factor : Factor
  change_pct : ℚ
  npv : ℚ
deriving Repr, DecidableEq

/-- The row appended for one `(factor, pct_change)` pair (lines 82-116). -/
def sensRow (inp : Inputs) (factor : Factor) (pct_change : ℚ) : SensitivityRow :=
  { factor := factor
    change_pct := pct_change
    npv := adj_npv inp (adjustFactor inp factor pct_change).1
      (adjustFactor inp factor pct_change).2.1
      (adjustFactor inp factor pct_change).2.2.1
      (adjustFactor inp factor pct_change).2.2.2 }

/-- Lines 80-116: the nested loop over factors and
`np.linspace(-range, range, steps)` grid points. -/
def sensitivity_results (inp : Inputs) (sensitivity_range : ℚ)
    (sensitivity_steps : ℕ) : List SensitivityRow :=
  factors.flatMap fun factor =>
    (linspace (-sensitivity_range) sensitivity_range sensitivity_steps).map
      (sensRow inp factor)

/-- The percentage-change vector of a scenario (lines 154-181). -/
structure ScenarioChanges where
  sales : ℚ
  price : ℚ
  variable_cost : ℚ
  fixed_cost : ℚ
deriving Repr, DecidableEq

/-- Lines 176-181: Base Case is all-zero deltas. -/
def baseCaseChanges : ScenarioChanges :=
  { sales := 0, price := 0, variable_cost := 0, fixed_cost := 0 }

/-- Lines 155-160: Best Case deltas. -/
def bestCaseChanges : ScenarioChanges :=
  { sales := 20, price := 10, variable_cost := -10, fixed_cost := -5 }

/-- Lines 162-167: Worst Case deltas. -/
def worstCaseChanges : ScenarioChanges :=
  { sales := -15, price := -5, variable_cost := 10, fixed_cost := 10 }

/-- Lines 169-174: Custom Scenario deltas; the four `st.number_input` widgets
have integer default 0 and step 1 and no min/max bound, so they accept any
integer. -/
def customChanges (s p v f : ℤ) : ScenarioChanges :=
  { sales := (s : ℚ), price := (p : ℚ), variable_cost := (v : ℚ), fixed_cost := (f : ℚ) }

/-- Line 184: `adj_sales = sales_units * (1 + changes["Sales"]/100)`. -/
def scenario_adj_sales (inp : Inputs) (changes : ScenarioChanges) : ℚ :=
  inp.sales_units * (1 + changes.sales / 100)

/-- Line 185: `adj_price = price_per_unit * (1 + changes["Price"]/100)`. -/
def scenario_adj_price (inp : Inputs) (changes : ScenarioChanges) : ℚ :=
  inp.price_per_unit * (1 + changes.price / 100)

/-- Line 186: `adj_vc = variable_cost_per_unit * (1 + changes["Variable Cost"]/100)`. -/
def scenario_adj_vc (inp : Inputs) (changes : ScenarioChanges) : ℚ :=
  inp.variable_cost_per_unit * (1 + changes.variable_cost / 100)

/-- Line 187: `adj_fc = fixed_cost * (1 + changes["Fixed Cost"]/100)`. -/
def scenario_adj_fc (inp : Inputs) (changes : ScenarioChanges) : ℚ :=
  inp.fixed_cost * (1 + changes.fixed_cost / 100)

/-- Line 190 applied to the scenario-adjusted values. -/
def scenario_revenue (inp : Inputs) (changes : ScenarioChanges) : ℚ :=
  adj_revenue (scenario_adj_sales inp changes) (scenario_adj_price inp changes)

/-- Line 191 applied to the scenario-adjusted values. -/
def scenario_ebit (inp : Inputs) (changes : ScenarioChanges) : ℚ :=
  adj_ebit (scenario_adj_sales inp changes) (scenario_adj_price inp changes)
    (scenario_adj_vc inp changes) (scenario_adj_fc inp changes)

/-- Line 192 applied to the scenario-adjusted values. -/
def scenario_net_income (inp : Inputs) (changes : ScenarioChanges) : ℚ :=
  adj_net_income inp (scenario_adj_sales inp changes) (scenario_adj_price inp changes)
    (scenario_adj_vc inp changes) (scenario_adj_fc inp changes)

/-- Line 195 applied to the scenario-adjusted values. -/
def scenario_npv (inp : Inputs) (changes : ScenarioChanges) : ℚ :=
  adj_npv inp (scenario_adj_sales inp changes) (scenario_adj_price inp changes)
    (scenario_adj_vc inp changes) (scenario_adj_fc inp changes)

/-- Line 207: `"Improved" if adj_npv > npv else "Worsened"`. -/
def profitability_change_label (adjNpv npvBase : ℚ) : String :=
  if npvBase < adjNpv then "Improved" else "Worsened"

/-- Line 208: the percent-delta display,
`f"{(adj_npv - npv)/abs(npv)*100:.1f}%" if npv != 0 else "N/A"`;
`none` models the sentinel string `"N/A"`. -/
def percent_delta_display (adjNpv npvBase : ℚ) : Option ℚ :=
  if npvBase ≠ 0 then some ((adjNpv - npvBase) / |npvBase| * 100) else none

/-! ### Shared helper lemmas -/

/-- The adjusted-path EBIT at the unperturbed base values is the base EBIT. -/
lemma adj_ebit_base (inp : Inputs) :
    adj_ebit inp.sales_units inp.price_per_unit inp.variable_cost_per_unit inp.fixed_cost
      = ebit inp := rfl

/-- Although line 107 computes net income as `ebit * (1 - tax_rate/100)` for
positive EBIT (instead of `ebit - tax_paid` as on line 38), at the base values
the two formulas agree. -/
lemma adj_net_income_base (inp : Inputs) :
    adj_net_income inp inp.sales_units inp.price_per_unit
      inp.variable_cost_per_unit inp.fixed_cost = net_income inp := by
  unfold adj_net_income net_income tax_paid
  rw [adj_ebit_base]
  split <;> ring

/-- The adjusted-path NPV at the unperturbed base values is the base NPV. -/
lemma adj_npv_base (inp : Inputs) :
    adj_npv inp inp.sales_units inp.price_per_unit
      inp.variable_cost_per_unit inp.fixed_cost = npv inp := by
  unfold adj_npv adj_discounted_cash_flows adj_cash_flows
  rw [adj_net_income_base]
  rfl

/-- The Base Case delta vector leaves all four factor values unchanged. -/
lemma scenario_adj_baseCase (inp : Inputs) :
    scenario_adj_sales inp baseCaseChanges = inp.sales_units ∧
    scenario_adj_price inp baseCaseChanges = inp.price_per_unit ∧
    scenario_adj_vc inp baseCaseChanges = inp.variable_cost_per_unit ∧
    scenario_adj_fc inp baseCaseChanges = inp.fixed_cost := by
  refine ⟨?_, ?_, ?_, ?_⟩ <;>
    simp [scenario_adj_sales, scenario_adj_price, scenario_adj_vc, scenario_adj_fc,
      baseCaseChanges]

/-- The scenario NPV of the Base Case vector equals the base NPV. -/
lemma scenario_npv_baseCase (inp : Inputs) :
    scenario_npv inp baseCaseChanges = npv inp := by
  obtain ⟨hs, hp, hv, hf⟩ := scenario_adj_baseCase inp
  rw [scenario_npv, hs, hp, hv, hf, adj_npv_base]

/-- A sensitivity row at 0 % change (for any factor) carries the base NPV. -/
lemma sensRow_zero (inp : Inputs) (factor : Factor) :
    sensRow inp factor 0 = ⟨factor, 0, npv inp⟩ := by
  cases factor <;> simp [sensRow, adjustFactor, adj_npv_base]

/-- For an odd point count `2k+1` (k ≥ 1), the numpy grid
`linspace(-R, R, 2k+1)` contains 0 exactly: it is the midpoint, index `k`. -/
lemma zero_mem_linspace (R : ℚ) (k : ℕ) (hk : 1 ≤ k) :
    (0 : ℚ) ∈ linspace (-R) R (2 * k + 1) := by
  have hval : -R + (k : ℚ) * (R - -R) / (((2 * k + 1 : ℕ) : ℚ) - 1) = 0 := by
    have hk0 : (k : ℚ) ≠ 0 := Nat.cast_ne_zero.mpr (by omega)
    have hden : ((2 * k + 1 : ℕ) : ℚ) - 1 = 2 * (k : ℚ) := by push_cast; ring
    rw [hden]
    field_simp
    ring
  have hmem : k ∈ List.range (2 * k + 1) := List.mem_range.mpr (by omega)
  rw [linspace, if_neg (show ¬(2 * k + 1 = 1) by omega), ← hval]
  exact List.mem_map_of_mem
    (fun i : ℕ => -R + (i : ℚ) * (R - -R) / (((2 * k + 1 : ℕ) : ℚ) - 1)) hmem

/-- `linspace` with at least two points is the evenly spaced map over `range`. -/
lemma linspace_eq_map (lo hi : ℚ) (N : ℕ) (hN : 2 ≤ N) :
    linspace lo hi N =
      (List.range N).map (fun i : ℕ => lo + (i : ℚ) * (hi - lo) / ((N : ℚ) - 1)) := by
  rw [linspace, if_neg (by omega)]

/-- `linspace` with at least two points has exactly `N` points. -/
lemma length_linspace (lo hi : ℚ) (N : ℕ) (hN : 2 ≤ N) :
    (linspace lo hi N).length = N := by
  rw [linspace_eq_map lo hi N hN, List.length_map, List.length_range]

/-- Point `i` of the symmetric grid `linspace(-R, R, N)` is `-R + i·2R/(N-1)`. -/
lemma linspace_getElem (R : ℚ) (N : ℕ) (hN : 2 ≤ N) (i : ℕ) (hi : i < N) :
    (linspace (-R) R N)[i]? = some (-R + (i : ℚ) * (2 * R) / ((N : ℚ) - 1)) := by
  rw [linspace_eq_map _ _ N hN, List.getElem?_map, List.getElem?_range hi,
    Option.map_some']
  exact congrArg some (by ring)

/-- The symmetric grid is strictly increasing in the index when `R > 0`. -/
lemma linspace_strict_mono (R : ℚ) (hR : 0 < R) (N : ℕ) (hN : 2 ≤ N) (i j : ℕ)
    (hij : i < j) (hj : j < N) (x y : ℚ)
    (hx : (linspace (-R) R N)[i]? = some x)
    (hy : (linspace (-R) R N)[j]? = some y) : x < y := by
  have hi : i < N := lt_trans hij hj
  rw [linspace_getElem R N hN i hi] at hx
  rw [linspace_getElem R N hN j hj] at hy
  have hx2 := Option.some.inj hx
  have hy2 := Option.some.inj hy
  subst hx2 hy2
  have hden : (0 : ℚ) < (N : ℚ) - 1 := by
    have h2 : (2 : ℚ) ≤ (N : ℚ) := by exact_mod_cast hN
    linarith
  have hcast : (i : ℚ) < (j : ℚ) := by exact_mod_cast hij
  have h2R : (0 : ℚ) < 2 * R := by linarith
  apply add_lt_add_left
  exact (div_lt_div_iff_of_pos_right hden).mpr (mul_lt_mul_of_pos_right hcast h2R)

/-- The symmetric grid is monotone in the index when `R ≥ 0`. -/
lemma linspace_mono (R : ℚ) (hR : 0 ≤ R) (N : ℕ) (hN : 2 ≤ N) (i j : ℕ)
    (hij : i ≤ j) (hj : j < N) (x y : ℚ)
    (hx : (linspace (-R) R N)[i]? = some x)
    (hy : (linspace (-R) R N)[j]? = some y) : x ≤ y := by
  have hi : i < N := lt_of_le_of_lt hij hj
  rw [linspace_getElem R N hN i hi] at hx
  rw [linspace_getElem R N hN j hj] at hy
  have hx2 := Option.some.inj hx
  have hy2 := Option.some.inj hy
  subst hx2 hy2
  have hden : (0 : ℚ) < (N : ℚ) - 1 := by
    have h2 : (2 : ℚ) ≤ (N : ℚ) := by exact_mod_cast hN
    linarith
  have hcast : (i : ℚ) ≤ (j : ℚ) := by exact_mod_cast hij
  have h2R : (0 : ℚ) ≤ 2 * R := by linarith
  apply add_le_add_left
  exact (div_le_div_iff_of_pos_right hden).mpr (mul_le_mul_of_nonneg_right hcast h2R)

end FinApp

namespace FinApp

/-- Claim C1: for every valid input the base computation satisfies the four
defining equations: revenue, EBIT, the tax branch (tax only on positive EBIT),
and net income. -/
theorem base_model_equations (inp : Inputs) (h : Valid inp) :
    revenue inp = inp.sales_units * inp.price_per_unit ∧
    ebit inp = revenue inp - inp.sales_units * inp.variable_cost_per_unit - inp.fixed_cost ∧
    (0 < ebit inp → tax_paid inp = ebit inp * (inp.tax_rate / 100)) ∧
    (ebit inp ≤ 0 → tax_paid inp = 0) ∧
    net_income inp = ebit inp - tax_paid inp := by
  clear h
  refine ⟨rfl, rfl, ?_, ?_, rfl⟩
  · intro hp
    rw [tax_paid, if_pos hp]
  · intro hle
    rw [tax_paid, if_neg (not_lt.mpr hle)]

/-- Witness for C1 at the example inputs. -/
theorem base_model_equations_example :
    Valid exampleInputs ∧
    (revenue exampleInputs = exampleInputs.sales_units * exampleInputs.price_per_unit ∧
     ebit exampleInputs = revenue exampleInputs -
       exampleInputs.sales_units * exampleInputs.variable_cost_per_unit -
       exampleInputs.fixed_cost ∧
     (0 < ebit exampleInputs →
       tax_paid exampleInputs = ebit exampleInputs * (exampleInputs.tax_rate / 100)) ∧
     (ebit exampleInputs ≤ 0 → tax_paid exampleInputs = 0) ∧
     net_income exampleInputs = ebit exampleInputs - tax_paid exampleInputs) :=
  ⟨by norm_num [Valid, exampleInputs],
   base_model_equations exampleInputs (by norm_num [Valid, exampleInputs])⟩

/-- Claim C2: for every valid input (so `years ≥ 1` and `discount_rate > 0`),
the cash-flow list has exactly `years` entries all equal to `net_income`, the
`i`-th discounted cash flow is `cash_flows[i] / (1+discount_rate)^(i+1)`, and
`npv` is the sum of the discounted cash flows minus `initial_investment`,
subtracted exactly once. -/
theorem cash_flow_npv_structure (inp : Inputs) (hv : Valid inp) :
    (cash_flows inp).length = inp.years ∧
    (∀ cf ∈ cash_flows inp, cf = net_income inp) ∧
    (discounted_cash_flows inp).length = inp.years ∧
    (∀ i, i < inp.years →
      (discounted_cash_flows inp)[i]? =
        ((cash_flows inp)[i]?).map (fun cf => cf / (1 + inp.discount_rate) ^ (i + 1))) ∧
    npv inp = (discounted_cash_flows inp).sum - inp.initial_investment := by
  clear hv
  refine ⟨List.length_replicate _ _, ?_, ?_, ?_, rfl⟩
  · intro cf hcf
    exact List.eq_of_mem_replicate hcf
  · rw [discounted_cash_flows, List.length_mapIdx, cash_flows, List.length_replicate]
  · intro i _
    rw [discounted_cash_flows, List.getElem?_mapIdx]

/-- Witness for C2 at the example inputs. -/
theorem cash_flow_npv_structure_example :
    Valid exampleInputs ∧
    ((cash_flows exampleInputs).length = exampleInputs.years ∧
     (∀ cf ∈ cash_flows exampleInputs, cf = net_income exampleInputs) ∧
     (discounted_cash_flows exampleInputs).length = exampleInputs.years ∧
     (∀ i, i < exampleInputs.years →
       (discounted_cash_flows exampleInputs)[i]? =
         ((cash_flows exampleInputs)[i]?).map
           (fun cf => cf / (1 + exampleInputs.discount_rate) ^ (i + 1))) ∧
     npv exampleInputs =
       (discounted_cash_flows exampleInputs).sum - exampleInputs.initial_investment) :=
  ⟨by norm_num [Valid, exampleInputs],
   cash_flow_npv_structure exampleInputs (by norm_num [Valid, exampleInputs])⟩

/-- Claim C3: the Base Case scenario (all four deltas zero) reproduces the base
results exactly — adjusted revenue, EBIT, net income and NPV all coincide with
the base ones, even though line 192 computes net income as
`ebit * (1 - tax_rate/100)` for positive EBIT instead of `ebit - tax_paid`. -/
theorem base_case_scenario_identity (inp : Inputs) (hv : Valid inp) :
    scenario_revenue inp baseCaseChanges = revenue inp ∧
    scenario_ebit inp baseCaseChanges = ebit inp ∧
    scenario_net_income inp baseCaseChanges = net_income inp ∧
    scenario_npv inp baseCaseChanges = npv inp := by
  clear hv
  obtain ⟨hs, hp, hvc, hf⟩ := scenario_adj_baseCase inp
  refine ⟨?_, ?_, ?_, scenario_npv_baseCase inp⟩
  · rw [scenario_revenue, hs, hp]; rfl
  · rw [scenario_ebit, hs, hp, hvc, hf]; rfl
  · rw [scenario_net_income, hs, hp, hvc, hf, adj_net_income_base]

/-- Witness for C3 at the example inputs. -/
theorem base_case_scenario_identity_example :
    Valid exampleInputs ∧
    (scenario_revenue exampleInputs baseCaseChanges = revenue exampleInputs ∧
     scenario_ebit exampleInputs baseCaseChanges = ebit exampleInputs ∧
     scenario_net_income exampleInputs baseCaseChanges = net_income exampleInputs ∧
     scenario_npv exampleInputs baseCaseChanges = npv exampleInputs) :=
  ⟨by norm_num [Valid, exampleInputs],
   base_case_scenario_identity exampleInputs (by norm_num [Valid, exampleInputs])⟩

/-- Claim C4: with an odd step count `N = 2k+1` (k ≥ 1) the grid
`linspace(-R, R, N)` contains 0 exactly, and for each of the four factors the
sensitivity row at 0 % change carries the base-case NPV — all four series
intersect at the zero-change point with the same value. -/
theorem sensitivity_zero_change (inp : Inputs) (hv : Valid inp) (R : ℚ) (k : ℕ)
    (hk : 1 ≤ k) (N : ℕ) (hN : N = 2 * k + 1) :
    (∀ factor ∈ factors,
      sensRow inp factor 0 = ⟨factor, 0, npv inp⟩ ∧
      sensRow inp factor 0 ∈ sensitivity_results inp R N) ∧
    (∀ row ∈ sensitivity_results inp R N,
      row.change_pct = 0 → row.npv = npv inp) := by
  clear hv
  subst hN
  constructor
  · intro factor hf
    refine ⟨sensRow_zero inp factor, ?_⟩
    exact List.mem_flatMap.mpr
      ⟨factor, hf, List.mem_map_of_mem _ (zero_mem_linspace R k hk)⟩
  · intro row hrow h0
    obtain ⟨factor, -, hrow2⟩ := List.mem_flatMap.mp hrow
    obtain ⟨pct, -, rfl⟩ := List.mem_map.mp hrow2
    have hpct : pct = 0 := h0
    subst hpct
    rw [sensRow_zero]

/-- Witness for C4 at the example inputs with range 20 and 5 steps. -/
theorem sensitivity_zero_change_example :
    Valid exampleInputs ∧ 1 ≤ 2 ∧ 5 = 2 * 2 + 1 ∧
    ((∀ factor ∈ factors,
       sensRow exampleInputs factor 0 = ⟨factor, 0, npv exampleInputs⟩ ∧
       sensRow exampleInputs factor 0 ∈ sensitivity_results exampleInputs 20 5) ∧
     (∀ row ∈ sensitivity_results exampleInputs 20 5,
       row.change_pct = 0 → row.npv = npv exampleInputs)) :=
  ⟨by norm_num [Valid, exampleInputs], by norm_num, by norm_num,
   sensitivity_zero_change exampleInputs (by norm_num [Valid, exampleInputs])
     20 2 (by norm_num) 5 (by norm_num)⟩

/-- Claim C5: the sensitivity sweep has exactly `4*N` rows, grouped by factor
in program order (Sales, Price, Variable Cost, Fixed Cost); within each
factor block the grid is `N` evenly spaced changes `-R + i·2R/(N-1)` spanning
`[-R, R]` in nondecreasing order, and each row perturbs only its named factor,
holding the other three at base value. -/
theorem sensitivity_sweep_shape (inp : Inputs) (hv : Valid inp) (R : ℚ)
    (hR : 0 ≤ R) (N : ℕ) (hN : 2 ≤ N) :
    sensitivity_results inp R N =
      (linspace (-R) R N).map (sensRow inp .sales) ++
      (linspace (-R) R N).map (sensRow inp .price) ++
      (linspace (-R) R N).map (sensRow inp .variableCost) ++
      (linspace (-R) R N).map (sensRow inp .fixedCost) ∧
    (sensitivity_results inp R N).length = 4 * N ∧
    (linspace (-R) R N).length = N ∧
    (∀ i, i < N →
      (linspace (-R) R N)[i]? = some (-R + (i : ℚ) * (2 * R) / ((N : ℚ) - 1))) ∧
    (linspace (-R) R N)[0]? = some (-R) ∧
    (linspace (-R) R N)[N - 1]? = some R ∧
    (∀ i j x y, i ≤ j → j < N →
      (linspace (-R) R N)[i]? = some x → (linspace (-R) R N)[j]? = some y →
      x ≤ y) ∧
    (0 < R → ∀ i j x y, i < j → j < N →
      (linspace (-R) R N)[i]? = some x → (linspace (-R) R N)[j]? = some y →
      x < y) ∧
    (∀ pct, adjustFactor inp .sales pct =
      (inp.sales_units * (1 + pct / 100), inp.price_per_unit,
        inp.variable_cost_per_unit, inp.fixed_cost)) ∧
    (∀ pct, adjustFactor inp .price pct =
      (inp.sales_units, inp.price_per_unit * (1 + pct / 100),
        inp.variable_cost_per_unit, inp.fixed_cost)) ∧
    (∀ pct, adjustFactor inp .variableCost pct =
      (inp.sales_units, inp.price_per_unit,
        inp.variable_cost_per_unit * (1 + pct / 100), inp.fixed_cost)) ∧
    (∀ pct, adjustFactor inp .fixedCost pct =
      (inp.sales_units, inp.price_per_unit,
        inp.variable_cost_per_unit, inp.fixed_cost * (1 + pct / 100))) := by
  clear hv
  refine ⟨?_, ?_, length_linspace _ _ N hN,
    fun i hi => linspace_getElem R N hN i hi, ?_, ?_,
    fun i j x y hij hj hx hy => linspace_mono R hR N hN i j hij hj x y hx hy,
    fun hRpos i j x y hij hj hx hy =>
      linspace_strict_mono R hRpos N hN i j hij hj x y hx hy,
    fun pct => rfl, fun pct => rfl, fun pct => rfl, fun pct => rfl⟩
  · simp [sensitivity_results, factors]
  · simp only [sensitivity_results, factors]
    simp [List.length_append, List.length_map, length_linspace _ _ N hN]
    omega
  · rw [linspace_getElem R N hN 0 (by omega)]
    norm_num
  · rw [linspace_getElem R N hN (N - 1) (by omega)]
    have h1N : (1 : ℕ) ≤ N := by omega
    have hden : ((N : ℚ) - 1) ≠ 0 := by
      have h2 : (2 : ℚ) ≤ (N : ℚ) := by exact_mod_cast hN
      intro hc
      linarith
    have hcast : ((N - 1 : ℕ) : ℚ) = (N : ℚ) - 1 := by
      push_cast [Nat.cast_sub h1N]
      ring
    refine congrArg some ?_
    rw [hcast]
    field_simp
    ring

/-- Witness for C5 at the example inputs with range 20 and 5 steps. -/
theorem sensitivity_sweep_shape_example :
    Valid exampleInputs ∧ (0 : ℚ) ≤ 20 ∧ 2 ≤ 5 ∧
    (sensitivity_results exampleInputs 20 5 =
      (linspace (-20) 20 5).map (sensRow exampleInputs .sales) ++
      (linspace (-20) 20 5).map (sensRow exampleInputs .price) ++
      (linspace (-20) 20 5).map (sensRow exampleInputs .variableCost) ++
      (linspace (-20) 20 5).map (sensRow exampleInputs .fixedCost) ∧
     (sensitivity_results exampleInputs 20 5).length = 4 * 5 ∧
     (linspace (-20) 20 5).length = 5 ∧
     (∀ i : ℕ, i < 5 →
       (linspace (-20) 20 5)[i]? =
         some (-20 + (i : ℚ) * (2 * 20) / (((5 : ℕ) : ℚ) - 1))) ∧
     (linspace (-20) 20 5)[0]? = some ((-20 : ℚ)) ∧
     (linspace (-20) 20 5)[5 - 1]? = some ((20 : ℚ)) ∧
     (∀ (i j : ℕ) (x y : ℚ), i ≤ j → j < 5 →
       (linspace (-20) 20 5)[i]? = some x → (linspace (-20) 20 5)[j]? = some y →
       x ≤ y) ∧
     ((0 : ℚ) < 20 → ∀ (i j : ℕ) (x y : ℚ), i < j → j < 5 →
       (linspace (-20) 20 5)[i]? = some x → (linspace (-20) 20 5)[j]? = some y →
       x < y) ∧
     (∀ pct, adjustFactor exampleInputs .sales pct =
       (exampleInputs.sales_units * (1 + pct / 100), exampleInputs.price_per_unit,
         exampleInputs.variable_cost_per_unit, exampleInputs.fixed_cost)) ∧
     (∀ pct, adjustFactor exampleInputs .price pct =
       (exampleInputs.sales_units, exampleInputs.price_per_unit * (1 + pct / 100),
         exampleInputs.variable_cost_per_unit, exampleInputs.fixed_cost)) ∧
     (∀ pct, adjustFactor exampleInputs .variableCost pct =
       (exampleInputs.sales_units, exampleInputs.price_per_unit,
         exampleInputs.variable_cost_per_unit * (1 + pct / 100),
         exampleInputs.fixed_cost)) ∧
     (∀ pct, adjustFactor exampleInputs .fixedCost pct =
       (exampleInputs.sales_units, exampleInputs.price_per_unit,
         exampleInputs.variable_cost_per_unit,
         exampleInputs.fixed_cost * (1 + pct / 100)))) :=
  ⟨by norm_num [Valid, exampleInputs], by norm_num, by norm_num,
   sensitivity_sweep_shape exampleInputs (by norm_num [Valid, exampleInputs])
     20 (by norm_num) 5 (by norm_num)⟩

/-- Claim C6: for every valid input and every scenario delta vector, the
percent-delta display is `(adjusted - base)/|base| * 100` when the base NPV is
nonzero, and the sentinel (`none`, rendered "N/A") when the base NPV is 0 —
no exception path exists. -/
theorem percent_delta_behavior (inp : Inputs) (hv : Valid inp)
    (changes : ScenarioChanges) :
    (npv inp = 0 →
      percent_delta_display (scenario_npv inp changes) (npv inp) = none) ∧
    (npv inp ≠ 0 →
      percent_delta_display (scenario_npv inp changes) (npv inp) =
        some ((scenario_npv inp changes - npv inp) / |npv inp| * 100)) := by
  clear hv
  constructor
  · intro h0
    rw [percent_delta_display, if_neg (by simp [h0])]
  · intro h0
    rw [percent_delta_display, if_pos h0]

/-- Witness for C6 at the example inputs with the Best Case vector. -/
theorem percent_delta_behavior_example :
    Valid exampleInputs ∧
    ((npv exampleInputs = 0 →
       percent_delta_display (scenario_npv exampleInputs bestCaseChanges)
         (npv exampleInputs) = none) ∧
     (npv exampleInputs ≠ 0 →
       percent_delta_display (scenario_npv exampleInputs bestCaseChanges)
         (npv exampleInputs) =
         some ((scenario_npv exampleInputs bestCaseChanges - npv exampleInputs) /
           |npv exampleInputs| * 100))) :=
  ⟨by norm_num [Valid, exampleInputs],
   percent_delta_behavior exampleInputs (by norm_num [Valid, exampleInputs])
     bestCaseChanges⟩

/-- The base NPV at the example inputs, exactly: `8989180000/161051 ≈ 55815.74`. -/
lemma npv_example : npv exampleInputs = 8989180000 / 161051 := by
  norm_num [npv, discounted_cash_flows, cash_flows, net_income, tax_paid, ebit,
    revenue, total_variable_cost, exampleInputs, List.replicate,
    List.mapIdx_cons, List.mapIdx_nil]

/-- Claim C7: at the example inputs the Best Case scenario NPV is strictly
above the base NPV and the Worst Case scenario NPV strictly below. -/
theorem best_worst_scenario_example :
    npv exampleInputs < scenario_npv exampleInputs bestCaseChanges ∧
    scenario_npv exampleInputs worstCaseChanges < npv exampleInputs := by
  constructor <;>
    rw [npv_example] <;>
    norm_num [scenario_npv, scenario_adj_sales, scenario_adj_price,
      scenario_adj_vc, scenario_adj_fc, adj_npv, adj_discounted_cash_flows,
      adj_cash_flows, adj_net_income, adj_ebit, adj_revenue, bestCaseChanges,
      worstCaseChanges, exampleInputs, List.replicate, List.mapIdx_cons,
      List.mapIdx_nil]

/-- Counterexample to C8 as stated: at the example inputs the claimed formula
`20000·(1 − 1.1⁻⁵)/0.10 − 20000` does hold exactly, but its value is about
55815.74, not within rounding of the claimed 35815.74 (it is off by ~20000). -/
theorem npv_example_not_near_claimed :
    npv exampleInputs = 20000 * (1 - (1.1 : ℚ) ^ (-5 : ℤ)) / 0.10 - 20000 ∧
    ¬ |npv exampleInputs - 35815.74| ≤ 1 := by
  rw [npv_example]
  constructor
  · norm_num
  · rw [not_le, lt_abs]
    left
    norm_num

/-- Claim C8 (amended): at the example inputs revenue = 50000, ebit = 25000,
tax_paid = 5000, net_income = 20000, and npv equals
`20000·(1 − 1.1⁻⁵)/0.10 − 20000 ≈ 55815.74` within rounding. -/
theorem npv_example_values :
    revenue exampleInputs = 50000 ∧ ebit exampleInputs = 25000 ∧
    tax_paid exampleInputs = 5000 ∧ net_income exampleInputs = 20000 ∧
    npv exampleInputs = 20000 * (1 - (1.1 : ℚ) ^ (-5 : ℤ)) / 0.10 - 20000 ∧
    |npv exampleInputs - 55815.74| < 1 / 200 := by
  refine ⟨by norm_num [revenue, exampleInputs],
    by norm_num [ebit, revenue, total_variable_cost, exampleInputs], ?_, ?_, ?_, ?_⟩
  · norm_num [tax_paid, ebit, revenue, total_variable_cost, exampleInputs]
  · norm_num [net_income, tax_paid, ebit, revenue, total_variable_cost, exampleInputs]
  · rw [npv_example]
    norm_num
  · rw [npv_example, abs_lt]
    constructor <;> norm_num

/-- Claim C9: the scenario comparison label is strict — "Improved" exactly
when the adjusted NPV strictly exceeds the base NPV, hence "Worsened" whenever
the two are equal; in particular the Base Case scenario always reads
"Worsened" (with a zero delta). -/
theorem profitability_label_strict (inp : Inputs) (hv : Valid inp) (adjNpv : ℚ) :
    (profitability_change_label adjNpv (npv inp) = "Improved" ↔ npv inp < adjNpv) ∧
    (adjNpv = npv inp →
      profitability_change_label adjNpv (npv inp) = "Worsened") ∧
    profitability_change_label (scenario_npv inp baseCaseChanges) (npv inp) =
      "Worsened" := by
  clear hv
  refine ⟨⟨?_, ?_⟩, ?_, ?_⟩
  · intro h
    by_contra hlt
    rw [profitability_change_label, if_neg hlt] at h
    exact absurd h (by decide)
  · intro h
    rw [profitability_change_label, if_pos h]
  · intro h
    subst h
    rw [profitability_change_label, if_neg (lt_irrefl _)]
  · rw [scenario_npv_baseCase, profitability_change_label, if_neg (lt_irrefl _)]

/-- Witness for C9 at the example inputs with adjusted NPV 0. -/
theorem profitability_label_strict_example :
    Valid exampleInputs ∧
    ((profitability_change_label 0 (npv exampleInputs) = "Improved" ↔
        npv exampleInputs < 0) ∧
     ((0 : ℚ) = npv exampleInputs →
        profitability_change_label 0 (npv exampleInputs) = "Worsened") ∧
     profitability_change_label (scenario_npv exampleInputs baseCaseChanges)
       (npv exampleInputs) = "Worsened") :=
  ⟨by norm_num [Valid, exampleInputs],
   profitability_label_strict exampleInputs (by norm_num [Valid, exampleInputs]) 0⟩

/-- Claim C10: the Custom Scenario deltas are unbounded integers; the scenario
computation is total — for every integer delta vector the adjusted results
satisfy their defining equations with no validation branch — and a delta below
−100 drives the corresponding factor value negative (unconditionally for
sales, whose base value is at least 1; for the other three whenever their base
value is positive). -/
theorem custom_scenario_total (inp : Inputs) (hv : Valid inp) (ds dp dv dfc : ℤ) :
    scenario_revenue inp (customChanges ds dp dv dfc) =
      scenario_adj_sales inp (customChanges ds dp dv dfc) *
        scenario_adj_price inp (customChanges ds dp dv dfc) ∧
    scenario_ebit inp (customChanges ds dp dv dfc) =
      scenario_revenue inp (customChanges ds dp dv dfc) -
        scenario_adj_sales inp (customChanges ds dp dv dfc) *
          scenario_adj_vc inp (customChanges ds dp dv dfc) -
        scenario_adj_fc inp (customChanges ds dp dv dfc) ∧
    scenario_npv inp (customChanges ds dp dv dfc) =
      (adj_discounted_cash_flows inp
        (scenario_adj_sales inp (customChanges ds dp dv dfc))
        (scenario_adj_price inp (customChanges ds dp dv dfc))
        (scenario_adj_vc inp (customChanges ds dp dv dfc))
        (scenario_adj_fc inp (customChanges ds dp dv dfc))).sum -
        inp.initial_investment ∧
    ((ds : ℚ) < -100 → scenario_adj_sales inp (customChanges ds dp dv dfc) < 0) ∧
    (0 < inp.price_per_unit → (dp : ℚ) < -100 →
      scenario_adj_price inp (customChanges ds dp dv dfc) < 0) ∧
    (0 < inp.variable_cost_per_unit → (dv : ℚ) < -100 →
      scenario_adj_vc inp (customChanges ds dp dv dfc) < 0) ∧
    (0 < inp.fixed_cost → (dfc : ℚ) < -100 →
      scenario_adj_fc inp (customChanges ds dp dv dfc) < 0) := by
  obtain ⟨hs, -, -, -, -, -, -, -, -, -⟩ := hv
  refine ⟨rfl, rfl, rfl, ?_, ?_, ?_, ?_⟩
  · intro hd
    have hpos : (0 : ℚ) < inp.sales_units := lt_of_lt_of_le one_pos hs
    rw [scenario_adj_sales]
    have hc : (customChanges ds dp dv dfc).sales = (ds : ℚ) := rfl
    rw [hc]
    exact mul_neg_of_pos_of_neg hpos (by linarith)
  · intro hpos hd
    rw [scenario_adj_price]
    have hc : (customChanges ds dp dv dfc).price = (dp : ℚ) := rfl
    rw [hc]
    exact mul_neg_of_pos_of_neg hpos (by linarith)
  · intro hpos hd
    rw [scenario_adj_vc]
    have hc : (customChanges ds dp dv dfc).variable_cost = (dv : ℚ) := rfl
    rw [hc]
    exact mul_neg_of_pos_of_neg hpos (by linarith)
  · intro hpos hd
    rw [scenario_adj_fc]
    have hc : (customChanges ds dp dv dfc).fixed_cost = (dfc : ℚ) := rfl
    rw [hc]
    exact mul_neg_of_pos_of_neg hpos (by linarith)

/-- Witness for C10 at the example inputs with all four deltas −200. -/
theorem custom_scenario_total_example :
    Valid exampleInputs ∧
    (scenario_revenue exampleInputs (customChanges (-200) (-200) (-200) (-200)) =
      scenario_adj_sales exampleInputs (customChanges (-200) (-200) (-200) (-200)) *
        scenario_adj_price exampleInputs (customChanges (-200) (-200) (-200) (-200)) ∧
     scenario_ebit exampleInputs (customChanges (-200) (-200) (-200) (-200)) =
      scenario_revenue exampleInputs (customChanges (-200) (-200) (-200) (-200)) -
        scenario_adj_sales exampleInputs (customChanges (-200) (-200) (-200) (-200)) *
          scenario_adj_vc exampleInputs (customChanges (-200) (-200) (-200) (-200)) -
        scenario_adj_fc exampleInputs (customChanges (-200) (-200) (-200) (-200)) ∧
     scenario_npv exampleInputs (customChanges (-200) (-200) (-200) (-200)) =
      (adj_discounted_cash_flows exampleInputs
        (scenario_adj_sales exampleInputs (customChanges (-200) (-200) (-200) (-200)))
        (scenario_adj_price exampleInputs (customChanges (-200) (-200) (-200) (-200)))
        (scenario_adj_vc exampleInputs (customChanges (-200) (-200) (-200) (-200)))
        (scenario_adj_fc exampleInputs (customChanges (-200) (-200) (-200) (-200)))).sum -
        exampleInputs.initial_investment ∧
     (((-200 : ℤ) : ℚ) < -100 →
       scenario_adj_sales exampleInputs (customChanges (-200) (-200) (-200) (-200)) < 0) ∧
     (0 < exampleInputs.price_per_unit → ((-200 : ℤ) : ℚ) < -100 →
       scenario_adj_price exampleInputs (customChanges (-200) (-200) (-200) (-200)) < 0) ∧
     (0 < exampleInputs.variable_cost_per_unit → ((-200 : ℤ) : ℚ) < -100 →
       scenario_adj_vc exampleInputs (customChanges (-200) (-200) (-200) (-200)) < 0) ∧
     (0 < exampleInputs.fixed_cost → ((-200 : ℤ) : ℚ) < -100 →
       scenario_adj_fc exampleInputs (customChanges (-200) (-200) (-200) (-200)) < 0)) :=
  ⟨by norm_num [Valid, exampleInputs],
   custom_scenario_total exampleInputs (by norm_num [Valid, exampleInputs])
     (-200) (-200) (-200) (-200)⟩

end FinApp
